import Mathlib

/-!
Verification development for the marketing-metadata audit tool.

The development shallowly embeds the program's pure data-shaping logic:
the pydantic domain models (`models.py`), the GTM/GA4 traversal and the
diagnostic summarizer (`fetch.py`), the text/JSON presenters
(`presenters.py`), and the configuration loader (`audit.py`).  Remote
services are modelled as records of functions from resource paths to the
payloads the real API would return; Python dictionaries of known schema
become structures, and `dict[str, Any]` parameter maps become
string-keyed association lists.  Python exceptions are modelled with
`Except` / `Option`.
-/

set_option maxRecDepth 4000

namespace MarketingAudit

/-! ## Python string primitives

`listReplace` embeds Python's `str.replace(old, new)`: it replaces every
non-overlapping occurrence of `pat`, scanning left to right.  `splitChar`
embeds `str.split(sep)` for a one-character separator, keeping empty
segments, so `splitChar '/' "a//b".data = [['a'], [], ['b']]`.
-/

/-- Worker for `listReplace`: each step consumes at least one
character, so `l.length` is always enough fuel. -/
def listReplaceF (pat rep : List Char) : Nat → List Char → List Char
  | _, [] => []
  | 0, l => l
  | fuel + 1, c :: rest =>
    if pat ≠ [] ∧ pat.isPrefixOf (c :: rest) then
      rep ++ listReplaceF pat rep fuel ((c :: rest).drop pat.length)
    else
      c :: listReplaceF pat rep fuel rest

def listReplace (pat rep l : List Char) : List Char :=
  listReplaceF pat rep l.length l

theorem listReplaceF_fuel (pat rep : List Char) :
    ∀ f₁ f₂ l, l.length ≤ f₁ → l.length ≤ f₂ →
      listReplaceF pat rep f₁ l = listReplaceF pat rep f₂ l := by
  intro f₁
  induction f₁ with
  | zero =>
    intro f₂ l h₁ _
    have : l = [] := List.eq_nil_of_length_eq_zero (Nat.le_zero.mp h₁)
    subst this
    simp [listReplaceF]
  | succ f ih =>
    intro f₂ l h₁ h₂
    match l, f₂ with
    | [], _ => simp [listReplaceF]
    | c :: rest, 0 => simp at h₂
    | c :: rest, g + 1 =>
      show listReplaceF pat rep (f + 1) (c :: rest) =
        listReplaceF pat rep (g + 1) (c :: rest)
      simp only [listReplaceF]
      by_cases hc : pat ≠ [] ∧ pat.isPrefixOf (c :: rest)
      · simp only [if_pos hc]
        have hp : 0 < pat.length := List.length_pos.mpr hc.1
        have hd : ((c :: rest).drop pat.length).length ≤ f := by
          simp only [List.length_drop, List.length_cons]
          simp only [List.length_cons] at h₁
          omega
        have hd' : ((c :: rest).drop pat.length).length ≤ g := by
          simp only [List.length_drop, List.length_cons]
          simp only [List.length_cons] at h₂
          omega
        rw [ih g ((c :: rest).drop pat.length) hd hd']
      · simp only [if_neg hc]
        have hr : rest.length ≤ f := by
          simp only [List.length_cons] at h₁; omega
        have hr' : rest.length ≤ g := by
          simp only [List.length_cons] at h₂; omega
        rw [ih g rest hr hr']

/-- The one-step unfolding of `listReplace`, matching the Python scan:
at a match (of a nonempty pattern) emit the replacement and skip the
matched characters, otherwise keep the head character. -/
theorem listReplace_cons (pat rep : List Char) (c : Char) (rest : List Char) :
    listReplace pat rep (c :: rest) =
      if pat ≠ [] ∧ pat.isPrefixOf (c :: rest) then
        rep ++ listReplace pat rep ((c :: rest).drop pat.length)
      else
        c :: listReplace pat rep rest := by
  show listReplaceF pat rep (rest.length + 1) (c :: rest) = _
  simp only [listReplaceF]
  by_cases hc : pat ≠ [] ∧ pat.isPrefixOf (c :: rest)
  · simp only [if_pos hc]
    have hp : 0 < pat.length := List.length_pos.mpr hc.1
    have hd : ((c :: rest).drop pat.length).length ≤ rest.length := by
      simp only [List.length_drop, List.length_cons]
      omega
    rw [listReplaceF_fuel pat rep rest.length ((c :: rest).drop pat.length).length
      ((c :: rest).drop pat.length) hd (Nat.le_refl _)]
    rfl
  · simp only [if_neg hc]
    rfl

/-- Python `s.replace(old, new)` on Lean strings. -/
def pyReplace (s pat rep : String) : String :=
  String.mk (listReplace pat.data rep.data s.data)

/-- Python `s.split(sep)` for a single-character separator. -/
def splitChar (sep : Char) : List Char → List (List Char)
  | [] => [[]]
  | c :: rest =>
    if c = sep then
      [] :: splitChar sep rest
    else
      match splitChar sep rest with
      | [] => [[c]]
      | h :: t => (c :: h) :: t

/-- Whether `pat` occurs as a contiguous substring of `l`. -/
def hasSubstr (pat : List Char) : List Char → Bool
  | [] => pat.isEmpty
  | c :: rest => pat.isPrefixOf (c :: rest) || hasSubstr pat rest

/-- Lookup in a string-keyed association list; embeds Python
`dict.get(k)` (first binding wins, mirroring a dict's unique keys). -/
def pyGet (d : List (String × String)) (k : String) : Option String :=
  match d with
  | [] => none
  | (k', v) :: rest => if k' = k then some v else pyGet rest k

/-! ## GA4 fetching (`fetch.py`, `build_ga_accounts`)

Raw API payloads are embedded as structures whose fields are the
dictionary keys the code reads.  The nested `webStreamData` /
`iosAppStreamData` / `androidAppStreamData` objects are optional
string-keyed maps, mirroring `stream.get("webStreamData", {})`.
-/

structure RawGaStream where
  type : String
  displayName : String
  webStreamData : Option (List (String × String)) := none
  iosAppStreamData : Option (List (String × String)) := none
  androidAppStreamData : Option (List (String × String)) := none
deriving Repr, DecidableEq

structure RawGaProperty where
  name : String
  displayName : String
  timeZone : String
  currencyCode : String
deriving Repr, DecidableEq

structure RawGaAccount where
  name : String
  displayName : String
deriving Repr, DecidableEq

/-- Domain model `GaDataStream` (`models.py`). -/
structure GaDataStream where
  display_name : String
  type : String
  measurement_id : Option String := none
deriving Repr, DecidableEq

/-- Domain model `GaProperty` (`models.py`). -/
structure GaProperty where
  display_name : String
  property_id : String
  time_zone : String
  currency_code : String
  data_streams : List GaDataStream := []
deriving Repr, DecidableEq

/-- Domain model `GaAccount` (`models.py`). -/
structure GaAccount where
  display_name : String
  account_id : String
  properties : List GaProperty := []
deriving Repr, DecidableEq

/-- The GA Admin API surface used by `build_ga_accounts`: account
listing, property listing filtered by parent, and data-stream listing. -/
structure GaService where
  accounts : List RawGaAccount
  propertiesOf : String → List RawGaProperty
  dataStreamsOf : String → List RawGaStream

/-- Per-stream body of the loop in `build_ga_accounts` (`fetch.py`
lines 209-231): normalize the type with `replace("_DATA_STREAM", "")`
and extract the identifier conditionally on the normalized type. -/
def buildGaStream (stream : RawGaStream) : GaDataStream :=
  let stream_type := pyReplace stream.type "_DATA_STREAM" ""
  let measurement_id :=
    if stream_type = "WEB" then
      pyGet (stream.webStreamData.getD []) "measurementId"
    else if stream_type = "IOS_APP" then
      pyGet (stream.iosAppStreamData.getD []) "firebaseAppId"
    else if stream_type = "ANDROID_APP" then
      pyGet (stream.androidAppStreamData.getD []) "firebaseAppId"
    else
      none
  { display_name := stream.displayName
    type := stream_type
    measurement_id := measurement_id }

/-- Python `name.split("/")[1]`: `none` models the `IndexError` raised
when the resource name holds no `/`. -/
def gaIdOf (name : String) : Option String :=
  ((splitChar '/' name.data)[1]?).map String.mk

/-- Per-property body of the loop in `build_ga_accounts`. -/
def buildGaProperty (service : GaService) (prop : RawGaProperty) :
    Option GaProperty := do
  let prop_id ← gaIdOf prop.name
  let streams_list := (service.dataStreamsOf prop.name).map buildGaStream
  pure
    { display_name := prop.displayName
      property_id := prop_id
      time_zone := prop.timeZone
      currency_code := prop.currencyCode
      data_streams := streams_list }

/-- The property loop of `build_ga_accounts`, in listing order. -/
def buildGaProperties (service : GaService) :
    List RawGaProperty → Option (List GaProperty)
  | [] => some []
  | p :: ps => do
    let p' ← buildGaProperty service p
    let ps' ← buildGaProperties service ps
    pure (p' :: ps')

/-- Per-account body of the loop in `build_ga_accounts`. -/
def buildGaAccount (service : GaService) (acc : RawGaAccount) :
    Option GaAccount := do
  let account_id ← gaIdOf acc.name
  let props ← buildGaProperties service (service.propertiesOf acc.name)
  pure
    { display_name := acc.displayName
      account_id := account_id
      properties := props }

/-- The account loop of `build_ga_accounts`. -/
def buildGaAccounts (service : GaService) :
    List RawGaAccount → Option (List GaAccount)
  | [] => some []
  | a :: as => do
    let a' ← buildGaAccount service a
    let as' ← buildGaAccounts service as
    pure (a' :: as')

/-- `build_ga_accounts` (`fetch.py` lines 193-242): walk accounts →
properties → data streams and assemble the GA domain objects. -/
def build_ga_accounts (service : GaService) : Option (List GaAccount) :=
  buildGaAccounts service service.accounts

/-! ## Spec-side definitions for refinement comparison -/

/-- Modelled from the spec's words for C6: strip a *trailing*
`_DATA_STREAM` suffix, leaving any other string unchanged. -/
def specStripSuffix (s : String) : String :=
  if "_DATA_STREAM".data.isSuffixOf s.data then
    String.mk (s.data.take (s.data.length - "_DATA_STREAM".data.length))
  else
    s

/-- Modelled from the spec's words for C7: the segment of a resource
name following the first `/` (up to the next `/` or the end). -/
def segmentAfterFirstSlash (name : String) : String :=
  String.mk (((name.data.dropWhile (· ≠ '/')).tail).takeWhile (· ≠ '/'))

/-! ## GTM domain models (`models.py`) -/

/-- Domain model `GtmVariable`. -/
structure GtmVariable where
  name : String
  variable_id : String
  type : String
deriving Repr, DecidableEq

/-- Domain model `GtmTrigger`. -/
structure GtmTrigger where
  name : String
  trigger_id : String
  type : String
deriving Repr, DecidableEq

/-- Domain model `GtmTag`.  The `dict[str, Any]` parameter maps are
embedded as string-keyed association lists. -/
structure GtmTag where
  name : String
  tag_id : String
  type : String
  firing_trigger_ids : List String := []
  parameters : Option (List (List (String × String))) := none
deriving Repr, DecidableEq

/-- Domain model `GtmContainer`.  The source's `variables` field is
named `vars` here (`variables` is reserved in Lean). -/
structure GtmContainer where
  name : String
  public_id : String
  container_id : String
  tags : List GtmTag := []
  triggers : List GtmTrigger := []
  vars : List GtmVariable := []
  live_version_id : Option String := none
  error : Option String := none
deriving Repr, DecidableEq

/-- Domain model `GtmAccount`. -/
structure GtmAccount where
  name : String
  account_id : String
  containers : List GtmContainer := []
deriving Repr, DecidableEq

/-! ## GTM fetching (`fetch.py`, `build_gtm_accounts`)

The Tag Manager API surface is a record of functions; the live-version
lookup is the one fallible call (`HttpError`, carrying `e.resp.status`).
The raw structures carry the dictionary keys the code reads, under their
API names; `GtmTag.model_validate` etc. become renaming functions.
-/

structure HttpErr where
  status : Nat
deriving Repr, DecidableEq

structure RawGtmVariable where
  name : String
  variableId : String
  type : String
deriving Repr, DecidableEq

structure RawGtmTrigger where
  name : String
  triggerId : String
  type : String
deriving Repr, DecidableEq

structure RawGtmTag where
  name : String
  tagId : String
  type : String
  firingTriggerId : List String := []
  parameters : Option (List (List (String × String))) := none
deriving Repr, DecidableEq

structure RawGtmContainer where
  name : String
  publicId : String
  containerId : String
  path : String
deriving Repr, DecidableEq

structure RawGtmAccount where
  name : String
  accountId : String
  path : String
deriving Repr, DecidableEq

/-- A live container version payload: the `containerVersionId` field and
the `tag` / `trigger` / `variable` lists read via `.get(k, [])`. -/
structure LiveVersion where
  containerVersionId : Option String := none
  tag : List RawGtmTag := []
  trigger : List RawGtmTrigger := []
  variableEntries : List RawGtmVariable := []
deriving Repr, DecidableEq

/-- The Tag Manager API surface used by `build_gtm_accounts`.  Account
and container listings are modelled as total; the live-version call may
raise an `HttpError`. -/
structure GtmService where
  accounts : List RawGtmAccount
  containersOf : String → List RawGtmContainer
  liveOf : String → Except HttpErr LiveVersion

/-- `GtmTag.model_validate` on a raw tag payload (alias renaming). -/
def validateTag (t : RawGtmTag) : GtmTag :=
  { name := t.name
    tag_id := t.tagId
    type := t.type
    firing_trigger_ids := t.firingTriggerId
    parameters := t.parameters }

/-- `GtmTrigger.model_validate` on a raw trigger payload. -/
def validateTrigger (t : RawGtmTrigger) : GtmTrigger :=
  { name := t.name, trigger_id := t.triggerId, type := t.type }

/-- `GtmVariable.model_validate` on a raw variable payload. -/
def validateVariable (v : RawGtmVariable) : GtmVariable :=
  { name := v.name, variable_id := v.variableId, type := v.type }

/-- `GtmContainer.model_validate` on a raw container payload: the child
lists and optional fields take their model defaults. -/
def validateContainer (c : RawGtmContainer) : GtmContainer :=
  { name := c.name, public_id := c.publicId, container_id := c.containerId }

/-- `_fetch_live_version` (`fetch.py` lines 40-53): a 404 `HttpError`
becomes `none` (no live version); any other `HttpError` re-raises. -/
def fetch_live_version (service : GtmService) (container_path : String) :
    Except HttpErr (Option LiveVersion) :=
  match service.liveOf container_path with
  | Except.ok v => Except.ok (some v)
  | Except.error e =>
    if e.status = 404 then Except.ok none else Except.error e

/-- Per-container body of the loop in `build_gtm_accounts` (`fetch.py`
lines 63-162): validate the container, then either mark it degraded (no
live version) or populate it from the live-version payload. -/
def processContainer (service : GtmService) (cont : RawGtmContainer) :
    Except HttpErr GtmContainer := do
  let container_model := validateContainer cont
  match ← fetch_live_version service cont.path with
  | none =>
    pure { container_model with error := some "No live version published" }
  | some live_version =>
    pure
      { container_model with
        live_version_id := live_version.containerVersionId
        tags := live_version.tag.map validateTag
        triggers := live_version.trigger.map validateTrigger
        vars := live_version.variableEntries.map validateVariable }

/-- The container loop of `build_gtm_accounts` over one account's
containers, in listing order; an uncaught `HttpError` aborts the whole
traversal. -/
def processContainers (service : GtmService) :
    List RawGtmContainer → Except HttpErr (List GtmContainer)
  | [] => Except.ok []
  | c :: cs => do
    let c' ← processContainer service c
    let cs' ← processContainers service cs
    pure (c' :: cs')

/-- Per-account body of the loop in `build_gtm_accounts`. -/
def buildGtmAccount (service : GtmService) (acc : RawGtmAccount) :
    Except HttpErr GtmAccount := do
  let containers ← processContainers service (service.containersOf acc.path)
  pure
    { name := acc.name
      account_id := acc.accountId
      containers := containers }

/-- The account loop of `build_gtm_accounts`. -/
def buildGtmAccounts (service : GtmService) :
    List RawGtmAccount → Except HttpErr (List GtmAccount)
  | [] => Except.ok []
  | a :: as => do
    let a' ← buildGtmAccount service a
    let as' ← buildGtmAccounts service as
    pure (a' :: as')

/-- `build_gtm_accounts` (`fetch.py` lines 56-164). -/
def build_gtm_accounts (service : GtmService) :
    Except HttpErr (List GtmAccount) :=
  buildGtmAccounts service service.accounts

/-! ## Report models and the computed summary (`models.py`) -/

/-- Report model `AuditSummary`: eight integer counters, all zero by
default. -/
structure AuditSummary where
  gtm_accounts : Nat := 0
  gtm_containers : Nat := 0
  gtm_tags : Nat := 0
  gtm_triggers : Nat := 0
  gtm_variables : Nat := 0
  ga_accounts : Nat := 0
  ga_properties : Nat := 0
  ga_streams : Nat := 0
deriving Repr, DecidableEq

/-- Report model `AuditReport`: the two account lists. -/
structure AuditReport where
  gtm_accounts : List GtmAccount
  ga_accounts : List GaAccount
deriving Repr, DecidableEq

/-- Inner GTM container loop of `AuditReport.summary`: accumulate tag,
trigger and variable counts. -/
def sumContainers (conts : List GtmContainer) (s : AuditSummary) :
    AuditSummary :=
  conts.foldl
    (fun s cont =>
      { s with
        gtm_tags := s.gtm_tags + cont.tags.length
        gtm_triggers := s.gtm_triggers + cont.triggers.length
        gtm_variables := s.gtm_variables + cont.vars.length })
    s

/-- Inner GA property loop of `AuditReport.summary`. -/
def sumProperties (props : List GaProperty) (s : AuditSummary) :
    AuditSummary :=
  props.foldl
    (fun s prop => { s with ga_streams := s.ga_streams + prop.data_streams.length })
    s

/-- The computed field `AuditReport.summary` (`models.py` lines 95-111),
recomputed from the current lists on each call. -/
def AuditReport.summary (r : AuditReport) : AuditSummary :=
  let s : AuditSummary := {}
  let s := { s with gtm_accounts := r.gtm_accounts.length }
  let s :=
    r.gtm_accounts.foldl
      (fun s acc =>
        sumContainers acc.containers
          { s with gtm_containers := s.gtm_containers + acc.containers.length })
      s
  let s := { s with ga_accounts := r.ga_accounts.length }
  r.ga_accounts.foldl
    (fun s acc =>
      sumProperties acc.properties
        { s with ga_properties := s.ga_properties + acc.properties.length })
    s

/-! ## The diagnostic summarizer (`fetch.py`, `summarize_object`)

Live-version payloads are JSON-like Python values: `PyVal` covers the
value shapes the summarizer distinguishes (`str`, `list`, `dict`, and
other scalars, which it passes through or stringifies by type).
-/

inductive PyVal where
  | str (s : String)
  | int (n : Int)
  | bool (b : Bool)
  | pynone
  | list (items : List PyVal)
  | dict (entries : List (String × PyVal))
deriving Repr

/-- Python `str(type(obj))` for the embedded value shapes. -/
def pyTypeStr : PyVal → String
  | .str _ => "<class \x27str\x27>"
  | .int _ => "<class \x27int\x27>"
  | .bool _ => "<class \x27bool\x27>"
  | .pynone => "<class \x27NoneType\x27>"
  | .list _ => "<class \x27list\x27>"
  | .dict _ => "<class \x27dict\x27>"

/-- `KEYS_TO_EXPAND` (`fetch.py` lines 74-80). -/
def KEYS_TO_EXPAND : List String :=
  ["tag", "parameter", "firingTriggerId", "monitoringMetadata", "consentSettings"]

/-- `truncate_string` (`fetch.py` lines 83-88): a string longer than
`truncate_at` becomes its first `truncate_to` characters plus the
literal trailing characters of the source file. -/
def truncate_string (val : String) (truncate_at : Nat := 100)
    (truncate_to : Nat := 20) : String :=
  if val.data.length > truncate_at then
    String.mk (val.data.take truncate_to) ++ "â€¦"
  else
    val

/-- The depth-cutoff test `max_depth is not None and current_depth >= max_depth`. -/
def depthCut (max_depth : Option Nat) (current_depth : Nat) : Bool :=
  match max_depth with
  | none => false
  | some d => current_depth ≥ d

mutual

/-- `summarize_object` (`fetch.py` lines 90-139): depth-limited summary
of a live-version payload.  A parent key in `KEYS_TO_EXPAND` clears the
depth limit; at the cutoff a value is replaced by its type string
(no embedded value has a `name` attribute, so the `hasattr` branch is
dead for these shapes); within a dict, string values are truncated,
and list/dict values recurse one level deeper under their key. -/
def summarize_object (obj : PyVal) (max_depth : Option Nat)
    (current_depth : Nat) (parent_key : String) : PyVal :=
  let md := if parent_key ∈ KEYS_TO_EXPAND then none else max_depth
  if depthCut md current_depth then
    PyVal.str (pyTypeStr obj)
  else
    match obj with
    | PyVal.dict entries =>
      PyVal.dict (summarizeEntries entries md current_depth)
    | PyVal.list items =>
      PyVal.list (summarizeItems items md (current_depth + 1) parent_key)
    | other => other

/-- The `for k, v in obj.items()` loop of `summarize_object`. -/
def summarizeEntries (entries : List (String × PyVal))
    (md : Option Nat) (current_depth : Nat) : List (String × PyVal) :=
  match entries with
  | [] => []
  | (k, PyVal.str s) :: rest =>
    (k, PyVal.str (truncate_string s)) :: summarizeEntries rest md current_depth
  | (k, PyVal.list items) :: rest =>
    (k, PyVal.list (summarizeItems items md (current_depth + 1) k)) ::
      summarizeEntries rest md current_depth
  | (k, PyVal.dict d) :: rest =>
    (k, summarize_object (PyVal.dict d) md (current_depth + 1) k) ::
      summarizeEntries rest md current_depth
  | (k, v) :: rest => (k, v) :: summarizeEntries rest md current_depth

/-- The list-comprehension branches of `summarize_object`. -/
def summarizeItems (items : List PyVal) (md : Option Nat)
    (depth : Nat) (parent_key : String) : List PyVal :=
  match items with
  | [] => []
  | item :: rest =>
    summarize_object item md depth parent_key ::
      summarizeItems rest md depth parent_key

end

/-! ## Presenters (`presenters.py`)

A Python `set[str]` is modelled as a duplicate-free list in insertion
order: claims about the set only use membership and set equality, which
are independent of the model's iteration order.
-/

/-- `ids.add(x)` on the modelled string set. -/
def setAdd (ids : List String) (x : String) : List String :=
  if x ∈ ids then ids else ids ++ [x]

/-- Python truthiness of `tag.parameters` (`Optional[list]`): `None`
and the empty list are falsy. -/
def paramsTruthy : Option (List (List (String × String))) → Bool
  | none => false
  | some ps => !ps.isEmpty

/-- `_extract_ga4_measurement_ids` (`presenters.py` lines 89-97): scan
tags of type `googtag` with truthy parameters for `measurementId`
entries, collecting `p.get("value", "")` into a set. -/
def extract_ga4_measurement_ids (container : GtmContainer) : List String :=
  container.tags.foldl
    (fun ids tag =>
      if tag.type == "googtag" && paramsTruthy tag.parameters then
        (tag.parameters.getD []).foldl
          (fun ids p =>
            if pyGet p "key" == some "measurementId" then
              setAdd ids ((pyGet p "value").getD "")
            else ids)
          ids
      else ids)
    []

/-- JSON values, for the serialized report tree. -/
inductive Json where
  | str (s : String)
  | num (n : Int)
  | null
  | arr (items : List Json)
  | obj (fields : List (String × Json))
deriving Repr

/-- Key lookup in a JSON object's field list. -/
def lookupFields : List (String × Json) → String → Option Json
  | [], _ => none
  | (k', v) :: rest, k => if k' = k then some v else lookupFields rest k

/-- Key lookup in a JSON object (`none` on other shapes). -/
def Json.lookup : Json → String → Option Json
  | Json.obj fields, k => lookupFields fields k
  | _, _ => none

/-- Serialization of an optional string: pydantic dumps `None` as JSON
`null`. -/
def dumpOptStr : Option String → Json
  | none => Json.null
  | some s => Json.str s

/-- Serialization of one `dict[str, Any]` parameter map. -/
def dumpParam (p : List (String × String)) : Json :=
  Json.obj (p.map fun kv => (kv.1, Json.str kv.2))

/-- `model_dump(by_alias=True)` of `GtmVariable`. -/
def dumpGtmVariable (v : GtmVariable) : Json :=
  Json.obj
    [("name", Json.str v.name),
     ("variableId", Json.str v.variable_id),
     ("type", Json.str v.type)]

/-- `model_dump(by_alias=True)` of `GtmTrigger`. -/
def dumpGtmTrigger (t : GtmTrigger) : Json :=
  Json.obj
    [("name", Json.str t.name),
     ("triggerId", Json.str t.trigger_id),
     ("type", Json.str t.type)]

/-- `model_dump(by_alias=True)` of `GtmTag`: aliased fields serialize
under their aliases, `parameters` (no alias) under its own name. -/
def dumpGtmTag (t : GtmTag) : Json :=
  Json.obj
    [("name", Json.str t.name),
     ("tagId", Json.str t.tag_id),
     ("type", Json.str t.type),
     ("firingTriggerId", Json.arr (t.firing_trigger_ids.map Json.str)),
     ("parameters",
       match t.parameters with
       | none => Json.null
       | some ps => Json.arr (ps.map dumpParam))]

/-- `model_dump(by_alias=True)` of `GtmContainer`; `live_version_id`
and `error` have no aliases. -/
def dumpGtmContainer (c : GtmContainer) : Json :=
  Json.obj
    [("name", Json.str c.name),
     ("publicId", Json.str c.public_id),
     ("containerId", Json.str c.container_id),
     ("tags", Json.arr (c.tags.map dumpGtmTag)),
     ("triggers", Json.arr (c.triggers.map dumpGtmTrigger)),
     ("variables", Json.arr (c.vars.map dumpGtmVariable)),
     ("live_version_id", dumpOptStr c.live_version_id),
     ("error", dumpOptStr c.error)]

/-- `model_dump(by_alias=True)` of `GtmAccount`. -/
def dumpGtmAccount (a : GtmAccount) : Json :=
  Json.obj
    [("name", Json.str a.name),
     ("accountId", Json.str a.account_id),
     ("containers", Json.arr (a.containers.map dumpGtmContainer))]

/-- `model_dump(by_alias=True)` of `GaDataStream`: `display_name` has
alias `displayName`; `measurement_id` declares no alias, so it
serializes under its own (snake-case) name. -/
def dumpGaDataStream (s : GaDataStream) : Json :=
  Json.obj
    [("displayName", Json.str s.display_name),
     ("type", Json.str s.type),
     ("measurement_id", dumpOptStr s.measurement_id)]

/-- `model_dump(by_alias=True)` of `GaProperty`; `property_id` has no
alias. -/
def dumpGaProperty (p : GaProperty) : Json :=
  Json.obj
    [("displayName", Json.str p.display_name),
     ("property_id", Json.str p.property_id),
     ("timeZone", Json.str p.time_zone),
     ("currencyCode", Json.str p.currency_code),
     ("dataStreams", Json.arr (p.data_streams.map dumpGaDataStream))]

/-- `model_dump(by_alias=True)` of `GaAccount`; `account_id` has no
alias. -/
def dumpGaAccount (a : GaAccount) : Json :=
  Json.obj
    [("displayName", Json.str a.display_name),
     ("account_id", Json.str a.account_id),
     ("properties", Json.arr (a.properties.map dumpGaProperty))]

/-- Serialization of `AuditSummary` (no aliases). -/
def dumpAuditSummary (s : AuditSummary) : Json :=
  Json.obj
    [("gtm_accounts", Json.num s.gtm_accounts),
     ("gtm_containers", Json.num s.gtm_containers),
     ("gtm_tags", Json.num s.gtm_tags),
     ("gtm_triggers", Json.num s.gtm_triggers),
     ("gtm_variables", Json.num s.gtm_variables),
     ("ga_accounts", Json.num s.ga_accounts),
     ("ga_properties", Json.num s.ga_properties),
     ("ga_streams", Json.num s.ga_streams)]

/-- `format_json_report` (`presenters.py` lines 14-16), modelled at the
JSON-tree level of `report.model_dump_json(indent=2, by_alias=True)`
(whitespace of the rendered text abstracted away): declared fields in
declaration order, then the computed `summary`. -/
def format_json_report (report : AuditReport) : Json :=
  Json.obj
    [("gtm_accounts", Json.arr (report.gtm_accounts.map dumpGtmAccount)),
     ("ga_accounts", Json.arr (report.ga_accounts.map dumpGaAccount)),
     ("summary", dumpAuditSummary report.summary)]

/-! ### Text report (`format_text_report`) -/

/-- Python f-string interpolation of an `Optional[str]`. -/
def pyShowOptStr : Option String → String
  | none => "None"
  | some s => s

/-- Python truthiness of an `Optional[str]`: `None` and `""` are falsy. -/
def strTruthy : Option String → Bool
  | none => false
  | some s => !s.isEmpty

/-- One step of the tag-type histogram
`tag_types[tag.type] = tag_types.get(tag.type, 0) + 1`, on an
insertion-ordered association list (a Python dict). -/
def bumpCount (m : List (String × Nat)) (k : String) : List (String × Nat) :=
  match m with
  | [] => [(k, 1)]
  | (k', n) :: rest =>
    if k' = k then (k', n + 1) :: rest else (k', n) :: bumpCount rest k

/-- The tag-type histogram of `format_text_report`. -/
def tagTypeCounts (tags : List GtmTag) : List (String × Nat) :=
  tags.foldl (fun m t => bumpCount m t.type) []

/-- Lexicographic code-point order on character lists (Python `<` on
strings). -/
def lexLt : List Char → List Char → Bool
  | [], [] => false
  | [], _ :: _ => true
  | _ :: _, [] => false
  | a :: as, b :: bs => if a < b then true else if b < a then false else lexLt as bs

/-- Python `sorted` on `dict.items()`: insertion sort by key (keys are
unique, so the sorted output is determined by the key order alone). -/
def insertByKey (p : String × Nat) : List (String × Nat) → List (String × Nat)
  | [] => [p]
  | q :: rest =>
    if lexLt p.1.data q.1.data then p :: q :: rest else q :: insertByKey p rest

def sortByKey (m : List (String × Nat)) : List (String × Nat) :=
  m.foldr insertByKey []

/-- The `"=" * 50` separator. -/
def eqBar : String := String.mk (List.replicate 50 '=')

/-- Per-container lines of `format_text_report` (`presenters.py` lines
29-52): a degraded container shows only its warning (the `continue`);
otherwise the live version, GA4 linkage lines, the tag histogram and
the trigger/variable counts follow. -/
def containerLines (container : GtmContainer) : List String :=
  let hdr := "  [Container] " ++ container.name ++ " (ID: " ++
    container.public_id ++ ")"
  if strTruthy container.error then
    [hdr, "    ⚠ " ++ container.error.getD ""]
  else
    let ga4_ids := extract_ga4_measurement_ids container
    let ga4Lines :=
      if ga4_ids.isEmpty then []
      else ga4_ids.map fun mid => "    → Links to GA4: " ++ mid
    [hdr, "    Live Version: " ++ pyShowOptStr container.live_version_id]
      ++ ga4Lines
      ++ ["    Tags (" ++ toString container.tags.length ++ "):"]
      ++ (sortByKey (tagTypeCounts container.tags)).map
          (fun kv => "      - " ++ kv.1 ++ ": " ++ toString kv.2)
      ++ ["    Triggers: " ++ toString container.triggers.length,
          "    Variables: " ++ toString container.vars.length]

/-- Per-GTM-account lines of `format_text_report`. -/
def gtmAccountLines (account : GtmAccount) : List String :=
  ("\n[Account] " ++ account.name ++ " (ID: " ++ account.account_id ++ ")")
    :: (account.containers.map containerLines).flatten

/-- Per-stream lines of `format_text_report`: only streams with a
truthy measurement id are listed. -/
def streamLines (stream : GaDataStream) : List String :=
  if strTruthy stream.measurement_id then
    ["    [Stream] " ++ stream.display_name ++ " → " ++
      stream.measurement_id.getD ""]
  else []

/-- Per-property lines of `format_text_report`. -/
def gaPropertyLines (prop : GaProperty) : List String :=
  ["  [Property] " ++ prop.display_name ++ " (ID: " ++ prop.property_id ++ ")",
   "    Timezone: " ++ prop.time_zone ++ " | Currency: " ++ prop.currency_code]
    ++ (prop.data_streams.map streamLines).flatten

/-- Per-GA-account lines of `format_text_report`. -/
def gaAccountLines (account : GaAccount) : List String :=
  ("\n[Account] " ++ account.display_name ++ " (ID: " ++
      account.account_id ++ ")")
    :: (account.properties.map gaPropertyLines).flatten

/-- The full line list of `format_text_report` (`presenters.py` lines
19-86). -/
def format_text_report_lines (report : AuditReport) : List String :=
  let s := report.summary
  ["\n" ++ eqBar, "GOOGLE TAG MANAGER", eqBar]
    ++ (report.gtm_accounts.map gtmAccountLines).flatten
    ++ ["\n" ++ eqBar, "GOOGLE ANALYTICS 4", eqBar]
    ++ (report.ga_accounts.map gaAccountLines).flatten
    ++ ["\n" ++ eqBar, "SUMMARY", eqBar,
        "GTM: " ++ toString s.gtm_accounts ++ " accounts, " ++
          toString s.gtm_containers ++ " containers, " ++
          toString s.gtm_tags ++ " tags, " ++
          toString s.gtm_triggers ++ " triggers, " ++
          toString s.gtm_variables ++ " variables",
        "GA4: " ++ toString s.ga_accounts ++ " accounts, " ++
          toString s.ga_properties ++ " properties, " ++
          toString s.ga_streams ++ " data streams",
        ""]

/-- `format_text_report`: the lines joined with newlines. -/
def format_text_report (report : AuditReport) : String :=
  String.intercalate "\n" (format_text_report_lines report)

/-! ## Configuration loading (`audit.py`, `load_config`)

The filesystem is a partial map from paths to contents (`none` models
`FileNotFoundError`); `json.load` of the standard library is an oracle
parameter returning a parsed value or a failure message.  `print`
writes to the standard-output channel; the function is total, so no
exception escapes it.
-/

inductive Channel where
  | stdout
  | stderr
deriving Repr, DecidableEq

structure FileSys where
  read : String → Option String

/-- The value returned by `load_config` together with the messages it
printed, each tagged with the channel it went to. -/
structure LoadResult where
  value : PyVal
  messages : List (Channel × String)

/-- `load_config` (`audit.py` lines 61-70). -/
def load_config (parse : String → Except String PyVal) (fs : FileSys)
    (path : String) : LoadResult :=
  match fs.read path with
  | none =>
    { value := PyVal.dict []
      messages :=
        [(Channel.stdout,
          "Error: Configuration file not found at \x27" ++ path ++ "\x27.")] }
  | some content =>
    match parse content with
    | Except.ok v => { value := v, messages := [] }
    | Except.error e =>
      { value := PyVal.dict []
        messages := [(Channel.stdout, "Error loading configuration: " ++ e)] }

/-! ## Supporting lemmas -/

theorem buildGaStream_type (s : RawGaStream) :
    (buildGaStream s).type = pyReplace s.type "_DATA_STREAM" "" := rfl

theorem buildGaStream_mid (s : RawGaStream) :
    (buildGaStream s).measurement_id =
      if pyReplace s.type "_DATA_STREAM" "" = "WEB" then
        pyGet (s.webStreamData.getD []) "measurementId"
      else if pyReplace s.type "_DATA_STREAM" "" = "IOS_APP" then
        pyGet (s.iosAppStreamData.getD []) "firebaseAppId"
      else if pyReplace s.type "_DATA_STREAM" "" = "ANDROID_APP" then
        pyGet (s.androidAppStreamData.getD []) "firebaseAppId"
      else
        none := rfl

theorem listReplace_of_not_hasSubstr (pat rep : List Char) :
    ∀ l, hasSubstr pat l = false → listReplace pat rep l = l := by
  intro l
  induction l with
  | nil => intro _; rfl
  | cons c rest ih =>
    intro h
    simp only [hasSubstr, Bool.or_eq_false_iff] at h
    rw [listReplace_cons]
    have hc : ¬(pat ≠ [] ∧ pat.isPrefixOf (c :: rest)) := by
      intro hcon
      rw [hcon.2] at h
      exact Bool.noConfusion h.1
    rw [if_neg hc, ih h.2]

/-- Structural characterization of `splitChar`: the head segment is the
characters before the first separator, and the remaining segments come
from splitting what follows it. -/
theorem splitChar_eq (sep : Char) :
    ∀ l : List Char,
      splitChar sep l =
        (l.takeWhile (· ≠ sep)) ::
          (if sep ∈ l then splitChar sep ((l.dropWhile (· ≠ sep)).tail)
           else []) := by
  intro l
  induction l with
  | nil => simp [splitChar]
  | cons c rest ih =>
    by_cases hc : c = sep
    · subst hc
      simp [splitChar, List.takeWhile_cons, List.dropWhile_cons]
    · have hsc : sep ≠ c := Ne.symm hc
      simp only [splitChar, if_neg hc, ih]
      simp [List.takeWhile_cons, List.dropWhile_cons, hc, hsc]

theorem splitChar_get1 (sep : Char) (l : List Char) (h : sep ∈ l) :
    (splitChar sep l)[1]? =
      some (((l.dropWhile (· ≠ sep)).tail).takeWhile (· ≠ sep)) := by
  rw [splitChar_eq, if_pos h, splitChar_eq sep ((l.dropWhile (· ≠ sep)).tail)]
  simp

/-! ## Claims -/

/-- C1 (confirmed).  For every GA4 data-stream record processed by
`build_ga_accounts`, the identifier is extracted conditionally on the
normalized (= stored) type: `WEB` takes the nested
`webStreamData.measurementId`, `IOS_APP` the nested
`iosAppStreamData.firebaseAppId`, `ANDROID_APP` the nested
`androidAppStreamData.firebaseAppId`, and any other normalized type
yields no identifier. -/
theorem ga_stream_id_extraction (stream : RawGaStream) :
    ((buildGaStream stream).type = "WEB" →
      (buildGaStream stream).measurement_id =
        pyGet (stream.webStreamData.getD []) "measurementId") ∧
    ((buildGaStream stream).type = "IOS_APP" →
      (buildGaStream stream).measurement_id =
        pyGet (stream.iosAppStreamData.getD []) "firebaseAppId") ∧
    ((buildGaStream stream).type = "ANDROID_APP" →
      (buildGaStream stream).measurement_id =
        pyGet (stream.androidAppStreamData.getD []) "firebaseAppId") ∧
    ((buildGaStream stream).type ≠ "WEB" →
      (buildGaStream stream).type ≠ "IOS_APP" →
      (buildGaStream stream).type ≠ "ANDROID_APP" →
      (buildGaStream stream).measurement_id = none) := by
  rw [buildGaStream_type, buildGaStream_mid]
  refine ⟨fun h => ?_, fun h => ?_, fun h => ?_, fun h1 h2 h3 => ?_⟩
  · rw [if_pos h]
  · rw [h]
    simp
  · rw [h]
    simp
  · rw [if_neg h1, if_neg h2, if_neg h3]

/-- Witness for C1 at the spec's own example inputs: a
`WEB_DATA_STREAM` with nested measurement id `G-123` stores type `WEB`
and id `G-123`; an `IOS_APP_DATA_STREAM` with nested Firebase app id
`1:abc` stores type `IOS_APP` and id `1:abc`. -/
theorem ga_stream_id_extraction_witness :
    (buildGaStream
        { type := "WEB_DATA_STREAM", displayName := "Site",
          webStreamData := some [("measurementId", "G-123")] }).measurement_id =
      some "G-123" ∧
    (buildGaStream
        { type := "IOS_APP_DATA_STREAM", displayName := "App",
          iosAppStreamData := some [("firebaseAppId", "1:abc")] }).measurement_id =
      some "1:abc" := by
  constructor
  · rw [(ga_stream_id_extraction
      { type := "WEB_DATA_STREAM", displayName := "Site",
        webStreamData := some [("measurementId", "G-123")] }).1 (by decide)]
    decide
  · rw [(ga_stream_id_extraction
      { type := "IOS_APP_DATA_STREAM", displayName := "App",
        iosAppStreamData := some [("firebaseAppId", "1:abc")] }).2.1 (by decide)]
    decide

/-- C6 (counterexample).  The claim asserts the normalization strips a
*trailing* `_DATA_STREAM` and leaves any raw type without that suffix
unchanged.  The code uses Python `str.replace`, which removes *every*
occurrence: on the raw type `A_DATA_STREAM_B` (which does not end in
`_DATA_STREAM`, so the claim demands it be stored unchanged) the stored
type is `A_B`. -/
theorem ga_type_normalization_counterexample :
    (buildGaStream { type := "A_DATA_STREAM_B", displayName := "s" }).type = "A_B" ∧
    specStripSuffix "A_DATA_STREAM_B" = "A_DATA_STREAM_B" ∧
    "A_B" ≠ "A_DATA_STREAM_B" := by
  refine ⟨by decide, ?_, by decide⟩
  have h : ("_DATA_STREAM" : String).data.isSuffixOf
      ("A_DATA_STREAM_B" : String).data = false := by decide
  simp [specStripSuffix, h]

/-- C6 (amended, proved).  `build_ga_accounts` normalizes a raw stream
type with Python `replace("_DATA_STREAM", "")`, removing every
occurrence of `_DATA_STREAM` (not only a trailing suffix): a raw type
containing no occurrence is stored unchanged, and each standard API
value (`WEB_DATA_STREAM`, `IOS_APP_DATA_STREAM`,
`ANDROID_APP_DATA_STREAM`, where the only occurrence is the trailing
suffix) normalizes to its prefix. -/
theorem ga_type_normalization (stream : RawGaStream) :
    ((buildGaStream stream).type = pyReplace stream.type "_DATA_STREAM" "") ∧
    (hasSubstr "_DATA_STREAM".data stream.type.data = false →
      (buildGaStream stream).type = stream.type) ∧
    pyReplace "WEB_DATA_STREAM" "_DATA_STREAM" "" = "WEB" ∧
    pyReplace "IOS_APP_DATA_STREAM" "_DATA_STREAM" "" = "IOS_APP" ∧
    pyReplace "ANDROID_APP_DATA_STREAM" "_DATA_STREAM" "" = "ANDROID_APP" := by
  refine ⟨buildGaStream_type stream, fun h => ?_, by decide, by decide, by decide⟩
  rw [buildGaStream_type]
  show String.mk (listReplace "_DATA_STREAM".data "".data stream.type.data) = stream.type
  rw [listReplace_of_not_hasSubstr _ _ _ h]

/-- Witness for C6 (amended) at a raw type with no occurrence of
`_DATA_STREAM`. -/
theorem ga_type_normalization_witness :
    (buildGaStream { type := "CUSTOM", displayName := "s" }).type = "CUSTOM" :=
  (ga_type_normalization { type := "CUSTOM", displayName := "s" }).2.1 (by decide)

/-- C7 (confirmed).  For every GA account or property resource name of
the form `collection/{id}` (at least one `/`), the id stored by
`build_ga_accounts` — `name.split("/")[1]` — is exactly the segment
after the first `/` of the resource name. -/
theorem ga_resource_id_from_path (name : String) (h : '/' ∈ name.data) :
    gaIdOf name = some (segmentAfterFirstSlash name) := by
  unfold gaIdOf segmentAfterFirstSlash
  rw [splitChar_get1 '/' name.data h]
  rfl

/-- Witness for C7 at `accounts/123`. -/
theorem ga_resource_id_from_path_witness :
    gaIdOf "accounts/123" = some "123" := by
  rw [ga_resource_id_from_path "accounts/123" (by decide)]
  decide

/-- The degraded container produced for a 404: validated fields plus
the error marker, everything else left at its model defaults. -/
def degradedContainer (cont : RawGtmContainer) : GtmContainer :=
  { validateContainer cont with error := some "No live version published" }

/-- C2 (confirmed).  If fetching a container's live version fails with
HTTP 404, the container is marked `error = "No live version published"`
with empty tag/trigger/variable lists and the traversal continues with
the remaining containers; an `HttpError` with any other status
propagates uncaught, aborting `build_gtm_accounts` as a whole. -/
theorem gtm_live_version_error_handling (service : GtmService)
    (cont : RawGtmContainer) (rest : List RawGtmContainer) :
    (service.liveOf cont.path = Except.error { status := 404 } →
      (degradedContainer cont).error = some "No live version published" ∧
      (degradedContainer cont).tags = [] ∧
      (degradedContainer cont).triggers = [] ∧
      (degradedContainer cont).vars = [] ∧
      processContainers service (cont :: rest) =
        (processContainers service rest).map (List.cons (degradedContainer cont))) ∧
    (∀ e : HttpErr, e.status ≠ 404 →
      service.liveOf cont.path = Except.error e →
      processContainers service (cont :: rest) = Except.error e ∧
      ∀ acc accs, service.accounts = acc :: accs →
        service.containersOf acc.path = cont :: rest →
        build_gtm_accounts service = Except.error e) := by
  constructor
  · intro h404
    refine ⟨rfl, rfl, rfl, rfl, ?_⟩
    have hproc : processContainer service cont = Except.ok (degradedContainer cont) := by
      simp only [processContainer, fetch_live_version, h404, degradedContainer]
      rfl
    rw [processContainers, hproc]
    cases hrest : processContainers service rest with
    | ok cs => rfl
    | error e => rfl
  · intro e he hliv
    have hproc : processContainer service cont = Except.error e := by
      simp only [processContainer, fetch_live_version, hliv]
      rw [if_neg he]
      rfl
    have hconts : processContainers service (cont :: rest) = Except.error e := by
      rw [processContainers, hproc]
      rfl
    refine ⟨hconts, ?_⟩
    intro acc accs haccs hcontsOf
    show buildGtmAccounts service service.accounts = Except.error e
    rw [haccs, buildGtmAccounts]
    have hacc : buildGtmAccount service acc = Except.error e := by
      rw [buildGtmAccount, hcontsOf, hconts]
      rfl
    rw [hacc]
    rfl

def contW1 : RawGtmContainer :=
  { name := "C1", publicId := "GTM-1", containerId := "10", path := "p1" }

def contW2 : RawGtmContainer :=
  { name := "C2", publicId := "GTM-2", containerId := "11", path := "p2" }

/-- A service whose first container 404s on the live-version call and
whose second raises a 500. -/
def svcW : GtmService :=
  { accounts := [{ name := "Acct", accountId := "1", path := "accounts/1" }]
    containersOf := fun _ => [contW1, contW2]
    liveOf := fun p =>
      if p = "p1" then Except.error { status := 404 }
      else Except.error { status := 500 } }

/-- Witness for C2: under `svcW`, the 404 container degrades and the
traversal continues into the rest, while a 500 on the head container
aborts the traversal and the whole `build_gtm_accounts` run. -/
theorem gtm_live_version_error_handling_witness :
    (processContainers svcW (contW1 :: [contW2]) =
      (processContainers svcW [contW2]).map (List.cons (degradedContainer contW1))) ∧
    processContainers svcW (contW2 :: []) = Except.error { status := 500 } := by
  constructor
  · exact ((gtm_live_version_error_handling svcW contW1 [contW2]).1 rfl).2.2.2.2
  · exact ((gtm_live_version_error_handling svcW contW2 []).2 { status := 500 }
      (by decide) rfl).1

/-! ### C4: the computed summary equals a direct recount -/

theorem sumContainers_spec (conts : List GtmContainer) (s : AuditSummary) :
    sumContainers conts s =
      { s with
        gtm_tags := s.gtm_tags + (conts.map (fun c => c.tags.length)).sum
        gtm_triggers := s.gtm_triggers + (conts.map (fun c => c.triggers.length)).sum
        gtm_variables := s.gtm_variables + (conts.map (fun c => c.vars.length)).sum } := by
  induction conts generalizing s with
  | nil => simp [sumContainers]
  | cons c cs ih =>
    simp only [sumContainers, List.foldl_cons] at *
    rw [ih]
    simp [Nat.add_assoc]

theorem sumProperties_spec (props : List GaProperty) (s : AuditSummary) :
    sumProperties props s =
      { s with
        ga_streams := s.ga_streams + (props.map (fun p => p.data_streams.length)).sum } := by
  induction props generalizing s with
  | nil => simp [sumProperties]
  | cons p ps ih =>
    simp only [sumProperties, List.foldl_cons] at *
    rw [ih]
    simp [Nat.add_assoc]

theorem gtmFold_spec (accs : List GtmAccount) (s : AuditSummary) :
    accs.foldl
      (fun s acc =>
        sumContainers acc.containers
          { s with gtm_containers := s.gtm_containers + acc.containers.length })
      s =
    { s with
      gtm_containers := s.gtm_containers + (accs.map (fun a => a.containers.length)).sum
      gtm_tags := s.gtm_tags +
        (accs.map (fun a => (a.containers.map (fun c => c.tags.length)).sum)).sum
      gtm_triggers := s.gtm_triggers +
        (accs.map (fun a => (a.containers.map (fun c => c.triggers.length)).sum)).sum
      gtm_variables := s.gtm_variables +
        (accs.map (fun a => (a.containers.map (fun c => c.vars.length)).sum)).sum } := by
  induction accs generalizing s with
  | nil => simp
  | cons a as ih =>
    simp only [List.foldl_cons]
    rw [sumContainers_spec, ih]
    simp [Nat.add_assoc]

theorem gaFold_spec (accs : List GaAccount) (s : AuditSummary) :
    accs.foldl
      (fun s acc =>
        sumProperties acc.properties
          { s with ga_properties := s.ga_properties + acc.properties.length })
      s =
    { s with
      ga_properties := s.ga_properties + (accs.map (fun a => a.properties.length)).sum
      ga_streams := s.ga_streams +
        (accs.map (fun a => (a.properties.map (fun p => p.data_streams.length)).sum)).sum } := by
  induction accs generalizing s with
  | nil => simp
  | cons a as ih =>
    simp only [List.foldl_cons]
    rw [sumProperties_spec, ih]
    simp [Nat.add_assoc]

/-- C4 (confirmed).  The computed summary equals a direct recount of
the current lists (accounts, containers, tags, triggers, variables,
properties, streams), and — being a pure function of the two lists —
it is recomputed on each access and cannot drift from them: any two
reports with equal lists have equal summaries. -/
theorem summary_is_recount (r : AuditReport) :
    r.summary.gtm_accounts = r.gtm_accounts.length ∧
    r.summary.gtm_containers =
      (r.gtm_accounts.map (fun a => a.containers.length)).sum ∧
    r.summary.gtm_tags =
      (r.gtm_accounts.map (fun a => (a.containers.map (fun c => c.tags.length)).sum)).sum ∧
    r.summary.gtm_triggers =
      (r.gtm_accounts.map (fun a => (a.containers.map (fun c => c.triggers.length)).sum)).sum ∧
    r.summary.gtm_variables =
      (r.gtm_accounts.map (fun a => (a.containers.map (fun c => c.vars.length)).sum)).sum ∧
    r.summary.ga_accounts = r.ga_accounts.length ∧
    r.summary.ga_properties =
      (r.ga_accounts.map (fun a => a.properties.length)).sum ∧
    r.summary.ga_streams =
      (r.ga_accounts.map (fun a => (a.properties.map (fun p => p.data_streams.length)).sum)).sum ∧
    ∀ r₂ : AuditReport, r.gtm_accounts = r₂.gtm_accounts →
      r.ga_accounts = r₂.ga_accounts → r.summary = r₂.summary := by
  have hsum : ∀ rr : AuditReport, rr.summary =
      { gtm_accounts := rr.gtm_accounts.length
        gtm_containers := (rr.gtm_accounts.map (fun a => a.containers.length)).sum
        gtm_tags :=
          (rr.gtm_accounts.map (fun a => (a.containers.map (fun c => c.tags.length)).sum)).sum
        gtm_triggers :=
          (rr.gtm_accounts.map (fun a => (a.containers.map (fun c => c.triggers.length)).sum)).sum
        gtm_variables :=
          (rr.gtm_accounts.map (fun a => (a.containers.map (fun c => c.vars.length)).sum)).sum
        ga_accounts := rr.ga_accounts.length
        ga_properties := (rr.ga_accounts.map (fun a => a.properties.length)).sum
        ga_streams :=
          (rr.ga_accounts.map (fun a => (a.properties.map (fun p => p.data_streams.length)).sum)).sum } := by
    intro rr
    show (rr.ga_accounts.foldl _ _) = _
    rw [gaFold_spec]
    conv_lhs => rw [gtmFold_spec]
    simp
  rw [hsum r]
  refine ⟨rfl, rfl, rfl, rfl, rfl, rfl, rfl, rfl, ?_⟩
  intro r₂ hg ha
  rw [hsum r₂, hg, ha]

/-- Witness for C4's drift-freedom conjunct at a concrete report. -/
theorem summary_is_recount_witness :
    ({ gtm_accounts := [], ga_accounts := [] } : AuditReport).summary =
      ({ gtm_accounts := [], ga_accounts := [] } : AuditReport).summary :=
  (summary_is_recount { gtm_accounts := [], ga_accounts := [] }).2.2.2.2.2.2.2.2
    { gtm_accounts := [], ga_accounts := [] } rfl rfl

/-! ### C3 / C10: the GA4 measurement-id set -/

theorem mem_setAdd (ids : List String) (x y : String) :
    x ∈ setAdd ids y ↔ x ∈ ids ∨ x = y := by
  unfold setAdd
  by_cases h : y ∈ ids
  · rw [if_pos h]
    constructor
    · exact Or.inl
    · rintro (hx | hx)
      · exact hx
      · rw [hx]; exact h
  · rw [if_neg h]
    simp

theorem nodup_setAdd (ids : List String) (y : String) (h : ids.Nodup) :
    (setAdd ids y).Nodup := by
  unfold setAdd
  by_cases hm : y ∈ ids
  · rw [if_pos hm]; exact h
  · rw [if_neg hm]
    refine List.Nodup.append h (List.nodup_singleton y) ?_
    intro a ha hy
    rw [List.mem_singleton] at hy
    subst hy
    exact hm ha

/-- The parameter condition checked by `_extract_ga4_measurement_ids`
for one parameter map. -/
def paramStep (ids : List String) (p : List (String × String)) : List String :=
  if pyGet p "key" == some "measurementId" then
    setAdd ids ((pyGet p "value").getD "")
  else ids

theorem extract_eq_fold (container : GtmContainer) :
    extract_ga4_measurement_ids container =
      container.tags.foldl
        (fun ids tag =>
          if tag.type == "googtag" && paramsTruthy tag.parameters then
            (tag.parameters.getD []).foldl paramStep ids
          else ids)
        [] := rfl

theorem mem_paramFold (ps : List (List (String × String))) :
    ∀ ids x, x ∈ ps.foldl paramStep ids ↔
      x ∈ ids ∨ ∃ p ∈ ps, pyGet p "key" = some "measurementId" ∧
        (pyGet p "value").getD "" = x := by
  induction ps with
  | nil => intro ids x; simp
  | cons p ps ih =>
    intro ids x
    rw [List.foldl_cons, ih]
    unfold paramStep
    by_cases hk : pyGet p "key" = some "measurementId"
    · rw [if_pos (by simp [hk])]
      rw [mem_setAdd]
      constructor
      · rintro ((hx | hx) | hx)
        · exact Or.inl hx
        · exact Or.inr ⟨p, List.mem_cons_self p ps, hk, hx.symm⟩
        · rcases hx with ⟨q, hq, hqk, hqv⟩
          exact Or.inr ⟨q, List.mem_cons_of_mem p hq, hqk, hqv⟩
      · rintro (hx | ⟨q, hq, hqk, hqv⟩)
        · exact Or.inl (Or.inl hx)
        · rcases List.mem_cons.mp hq with hq | hq
          · subst hq
            exact Or.inl (Or.inr hqv.symm)
          · exact Or.inr ⟨q, hq, hqk, hqv⟩
    · rw [if_neg (by simp [hk])]
      constructor
      · rintro (hx | hx)
        · exact Or.inl hx
        · rcases hx with ⟨q, hq, hqk, hqv⟩
          exact Or.inr ⟨q, List.mem_cons_of_mem p hq, hqk, hqv⟩
      · rintro (hx | ⟨q, hq, hqk, hqv⟩)
        · exact Or.inl hx
        · rcases List.mem_cons.mp hq with hq | hq
          · subst hq; exact absurd hqk hk
          · exact Or.inr ⟨q, hq, hqk, hqv⟩

/-- The membership condition a tag contributes to the GA4 id set. -/
def tagYields (tag : GtmTag) (x : String) : Prop :=
  tag.type = "googtag" ∧
    ∃ ps, tag.parameters = some ps ∧ ps ≠ [] ∧
      ∃ p ∈ ps, pyGet p "key" = some "measurementId" ∧
        (pyGet p "value").getD "" = x

/-- The guard of `_extract_ga4_measurement_ids`, as a proposition. -/
theorem tag_cond_iff (tag : GtmTag) :
    (tag.type == "googtag" && paramsTruthy tag.parameters) = true ↔
      tag.type = "googtag" ∧ ∃ ps, tag.parameters = some ps ∧ ps ≠ [] := by
  cases hp : tag.parameters with
  | none => simp [paramsTruthy, hp]
  | some ps =>
    cases ps with
    | nil => simp [paramsTruthy, hp]
    | cons q qs => simp [paramsTruthy, hp]

theorem mem_tagFold (tags : List GtmTag) :
    ∀ ids x,
      x ∈ tags.foldl
        (fun ids tag =>
          if tag.type == "googtag" && paramsTruthy tag.parameters then
            (tag.parameters.getD []).foldl paramStep ids
          else ids)
        ids ↔
      x ∈ ids ∨ ∃ tag ∈ tags, tagYields tag x := by
  induction tags with
  | nil => intro ids x; simp
  | cons tag tags ih =>
    intro ids x
    rw [List.foldl_cons, ih]
    by_cases hcond : (tag.type == "googtag" && paramsTruthy tag.parameters) = true
    · rcases (tag_cond_iff tag).mp hcond with ⟨hty, ps, hps, hne⟩
      rw [if_pos hcond]
      simp only [hps, Option.getD_some]
      rw [mem_paramFold]
      constructor
      · rintro ((hx | hx) | hx)
        · exact Or.inl hx
        · rcases hx with ⟨p, hp, hpk, hpv⟩
          exact Or.inr ⟨tag, List.mem_cons_self tag tags,
            hty, ps, hps, hne, p, hp, hpk, hpv⟩
        · rcases hx with ⟨t, ht, hy⟩
          exact Or.inr ⟨t, List.mem_cons_of_mem tag ht, hy⟩
      · rintro (hx | ⟨t, ht, hy⟩)
        · exact Or.inl (Or.inl hx)
        · rcases List.mem_cons.mp ht with ht | ht
          · subst ht
            rcases hy with ⟨_, ps', hps', _, p, hp, hpk, hpv⟩
            rw [hps] at hps'
            cases hps'
            exact Or.inl (Or.inr ⟨p, hp, hpk, hpv⟩)
          · exact Or.inr ⟨t, ht, hy⟩
    · rw [if_neg hcond]
      constructor
      · rintro (hx | ⟨t, ht, hy⟩)
        · exact Or.inl hx
        · exact Or.inr ⟨t, List.mem_cons_of_mem tag ht, hy⟩
      · rintro (hx | ⟨t, ht, hy⟩)
        · exact Or.inl hx
        · rcases List.mem_cons.mp ht with ht | ht
          · subst ht
            rcases hy with ⟨hty, ps, hps, hne, _⟩
            exact absurd ((tag_cond_iff t).mpr ⟨hty, ps, hps, hne⟩) hcond
          · exact Or.inr ⟨t, ht, hy⟩

theorem mem_extract (container : GtmContainer) (x : String) :
    x ∈ extract_ga4_measurement_ids container ↔
      ∃ tag ∈ container.tags, tagYields tag x := by
  rw [extract_eq_fold, mem_tagFold]
  simp

theorem nodup_paramFold (ps : List (List (String × String))) :
    ∀ ids, ids.Nodup → (ps.foldl paramStep ids).Nodup := by
  induction ps with
  | nil => intro ids h; exact h
  | cons p ps ih =>
    intro ids h
    rw [List.foldl_cons]
    apply ih
    unfold paramStep
    by_cases hk : pyGet p "key" == some "measurementId"
    · rw [if_pos hk]; exact nodup_setAdd _ _ h
    · rw [if_neg hk]; exact h

theorem nodup_extract (container : GtmContainer) :
    (extract_ga4_measurement_ids container).Nodup := by
  rw [extract_eq_fold]
  generalize container.tags = tags
  have : ∀ (ids : List String), ids.Nodup →
      (tags.foldl
        (fun ids tag =>
          if tag.type == "googtag" && paramsTruthy tag.parameters then
            (tag.parameters.getD []).foldl paramStep ids
          else ids)
        ids).Nodup := by
    induction tags with
    | nil => intro ids h; exact h
    | cons tag tags ih =>
      intro ids h
      rw [List.foldl_cons]
      apply ih
      by_cases hc : tag.type == "googtag" && paramsTruthy tag.parameters
      · rw [if_pos hc]; exact nodup_paramFold _ _ h
      · rw [if_neg hc]; exact h
  exact this [] List.nodup_nil

/-- The spec's own example container: one `googtag` tag whose single
parameter map is `[("key", "measurementId"), ("value", "G-999")]`. -/
def exampleContainerC3 : GtmContainer :=
  { name := "Main", public_id := "GTM-X", container_id := "2",
    tags := [{ name := "GA4 Config", tag_id := "1", type := "googtag",
               parameters := some [[("key", "measurementId"),
                                    ("value", "G-999")]] }] }

/-- C3 (confirmed).  `_extract_ga4_measurement_ids` returns exactly the
set of distinct values of `measurementId` parameter entries found in
tags of type `googtag` with a non-empty parameter list (an entry's
value reads as `p.get("value", "")`): membership is characterized by
that condition, the result is duplicate-free, and on the spec's example
container the result is exactly the set containing `G-999`. -/
theorem extract_ids_are_googtag_measurement_ids (container : GtmContainer)
    (x : String) :
    (x ∈ extract_ga4_measurement_ids container ↔
      ∃ tag ∈ container.tags, tag.type = "googtag" ∧
        ∃ ps, tag.parameters = some ps ∧ ps ≠ [] ∧
          ∃ p ∈ ps, pyGet p "key" = some "measurementId" ∧
            (pyGet p "value").getD "" = x) ∧
    (extract_ga4_measurement_ids container).Nodup ∧
    extract_ga4_measurement_ids exampleContainerC3 = ["G-999"] := by
  refine ⟨mem_extract container x, nodup_extract container, rfl⟩

/-! ### C10: a `measurementId` entry without a value yields the empty id -/

/-- A container whose `googtag` tag has a `measurementId` parameter
entry with no `value` entry. -/
def exampleContainerC10 : GtmContainer :=
  { name := "NoVal", public_id := "GTM-Y", container_id := "3",
    live_version_id := some "5",
    tags := [{ name := "GA4 Config", tag_id := "1", type := "googtag",
               parameters := some [[("key", "measurementId")]] }] }

/-- The report format_text_report runs on in the C10 witness scenario. -/
def exampleReportC10 : AuditReport :=
  { gtm_accounts := [{ name := "Acct", account_id := "1",
                       containers := [exampleContainerC10] }]
    ga_accounts := [] }

/-- C10 (confirmed).  A `googtag` tag whose non-empty parameter list
has an entry with key `measurementId` but no `value` entry contributes
`""` to the extracted id set (via `p.get("value", "")`), so
`format_text_report` can emit a GA4 linkage line with an empty id — as
it does on `exampleReportC10`, whose line list contains the line
`    → Links to GA4: ` with nothing after the colon-space. -/
theorem empty_value_yields_empty_id (c : GtmContainer) (tag : GtmTag)
    (ps : List (List (String × String))) (p : List (String × String)) :
    (tag ∈ c.tags → tag.type = "googtag" → tag.parameters = some ps →
      ps ≠ [] → p ∈ ps → pyGet p "key" = some "measurementId" →
      pyGet p "value" = none →
      "" ∈ extract_ga4_measurement_ids c) ∧
    "    → Links to GA4: " ∈ format_text_report_lines exampleReportC10 := by
  constructor
  · intro htag hty hps hne hp hk hv
    rw [mem_extract]
    exact ⟨tag, htag, hty, ps, hps, hne, p, hp, hk, by rw [hv]; rfl⟩
  · exact List.mem_of_elem_eq_true (by with_unfolding_all rfl)

/-- Witness for C10 at the concrete container `exampleContainerC10`. -/
theorem empty_value_yields_empty_id_witness :
    "" ∈ extract_ga4_measurement_ids exampleContainerC10 :=
  (empty_value_yields_empty_id exampleContainerC10
      { name := "GA4 Config", tag_id := "1", type := "googtag",
        parameters := some [[("key", "measurementId")]] }
      [[("key", "measurementId")]] [("key", "measurementId")]).1
    (List.mem_of_elem_eq_true (by with_unfolding_all rfl)) rfl rfl (by simp)
    (List.mem_of_elem_eq_true (by with_unfolding_all rfl)) rfl rfl

/-! ### C5: JSON field names -/

def exampleStreamC5 : GaDataStream :=
  { display_name := "Web", type := "WEB", measurement_id := some "G-123" }

def exampleReportC5 : AuditReport :=
  { gtm_accounts := []
    ga_accounts := [{ display_name := "Acme", account_id := "123",
                      properties := [{ display_name := "Site",
                                       property_id := "456",
                                       time_zone := "UTC",
                                       currency_code := "USD",
                                       data_streams := [exampleStreamC5] }] }] }

/-- C5 (counterexample).  The claim asserts the JSON report uses the
remote API's (aliased) field names throughout, and in particular that
the stream object carries its id under `measurementId`.  But
`GaDataStream.measurement_id` declares no alias, so
`model_dump_json(by_alias=True)` emits it under `measurement_id`: on a
report with one GA account, one property and one WEB stream with id
`G-123`, the serialized stream object has no `measurementId` key and
carries the id under `measurement_id`. -/
theorem json_measurement_id_key_counterexample :
    format_json_report exampleReportC5 =
      Json.obj
        [("gtm_accounts", Json.arr []),
         ("ga_accounts", Json.arr
           [Json.obj
             [("displayName", Json.str "Acme"),
              ("account_id", Json.str "123"),
              ("properties", Json.arr
                [Json.obj
                  [("displayName", Json.str "Site"),
                   ("property_id", Json.str "456"),
                   ("timeZone", Json.str "UTC"),
                   ("currencyCode", Json.str "USD"),
                   ("dataStreams", Json.arr
                     [Json.obj
                       [("displayName", Json.str "Web"),
                        ("type", Json.str "WEB"),
                        ("measurement_id", Json.str "G-123")]])]])]]),
         ("summary", Json.obj
           [("gtm_accounts", Json.num 0), ("gtm_containers", Json.num 0),
            ("gtm_tags", Json.num 0), ("gtm_triggers", Json.num 0),
            ("gtm_variables", Json.num 0), ("ga_accounts", Json.num 1),
            ("ga_properties", Json.num 1), ("ga_streams", Json.num 1)])] ∧
    (dumpGaDataStream exampleStreamC5).lookup "measurementId" = none ∧
    (dumpGaDataStream exampleStreamC5).lookup "measurement_id" =
      some (Json.str "G-123") := by
  refine ⟨?_, ?_, ?_⟩ <;> with_unfolding_all rfl

/-- C5 (amended, proved).  `format_json_report` serializes the domain
model with declared aliases where they exist (`displayName`, `timeZone`,
`currencyCode`, `dataStreams`, ...); fields without a declared alias —
among them `measurement_id` — serialize under their model names, so a
stream's id is carried under the key `measurement_id`, not
`measurementId`. -/
theorem json_report_field_names (r : AuditReport) (s : GaDataStream) :
    ((format_json_report r).lookup "ga_accounts" =
      some (Json.arr (r.ga_accounts.map dumpGaAccount))) ∧
    (∀ a : GaAccount, (dumpGaAccount a).lookup "properties" =
      some (Json.arr (a.properties.map dumpGaProperty))) ∧
    (∀ p : GaProperty, (dumpGaProperty p).lookup "dataStreams" =
      some (Json.arr (p.data_streams.map dumpGaDataStream))) ∧
    ((dumpGaDataStream s).lookup "displayName" =
      some (Json.str s.display_name)) ∧
    ((dumpGaDataStream s).lookup "measurement_id" =
      some (dumpOptStr s.measurement_id)) ∧
    ((dumpGaDataStream s).lookup "measurementId" = none) := by
  refine ⟨?_, fun a => ?_, fun p => ?_, ?_, ?_, ?_⟩ <;> with_unfolding_all rfl

/-! ### C8: the diagnostic summarizer -/

/-- The per-entry action of the `for k, v in obj.items()` loop. -/
def summarizeEntry (md : Option Nat) (cd : Nat) :
    String × PyVal → String × PyVal
  | (k, PyVal.str s) => (k, PyVal.str (truncate_string s))
  | (k, PyVal.list items) => (k, PyVal.list (summarizeItems items md (cd + 1) k))
  | (k, PyVal.dict d) => (k, summarize_object (PyVal.dict d) md (cd + 1) k)
  | (k, v) => (k, v)

theorem summarizeEntries_eq_map (md : Option Nat) (cd : Nat) :
    ∀ entries, summarizeEntries entries md cd =
      entries.map (summarizeEntry md cd) := by
  intro entries
  induction entries with
  | nil => rfl
  | cons e rest ih =>
    match e with
    | (k, PyVal.str s) => simp [summarizeEntries, summarizeEntry, ih]
    | (k, PyVal.list items) => simp [summarizeEntries, summarizeEntry, ih]
    | (k, PyVal.dict d) => simp [summarizeEntries, summarizeEntry, ih]
    | (k, PyVal.int n) => simp [summarizeEntries, summarizeEntry, ih]
    | (k, PyVal.bool b) => simp [summarizeEntries, summarizeEntry, ih]
    | (k, PyVal.pynone) => simp [summarizeEntries, summarizeEntry, ih]

/-- A 101-character string. -/
def longA : String := String.mk (List.replicate 101 'a')

/-- C8 (counterexample).  The claim asserts the summarizer truncates
*every* string value longer than 100 characters.  But only strings that
are direct dictionary values are passed through `truncate_string`:
a string appearing as a *list element* is returned untouched.  On the
live-version payload whose `firingTriggerId` list holds one
101-character string, `summarize_object` with `max_depth=1` returns the
payload completely unchanged, the long string untruncated. -/
theorem summarizer_truncation_counterexample :
    summarize_object
        (PyVal.dict [("firingTriggerId", PyVal.list [PyVal.str longA])])
        (some 1) 0 "" =
      PyVal.dict [("firingTriggerId", PyVal.list [PyVal.str longA])] ∧
    longA.data.length = 101 ∧
    truncate_string longA ≠ longA := by
  refine ⟨by with_unfolding_all rfl, by with_unfolding_all rfl, ?_⟩
  intro he
  have h1 : (truncate_string longA).data.length = 23 := by
    with_unfolding_all rfl
  have h2 : longA.data.length = 101 := by with_unfolding_all rfl
  rw [he, h2] at h1
  cases h1

/-- C8 (amended, proved).  With the depth limit not yet reached, the
summarizer truncates every string appearing as a *direct dictionary
value* that is longer than 100 characters to its first 20 characters
plus the ellipsis marker (strings inside lists are not so truncated —
see the counterexample); and it never depth-truncates values under the
keys `tag`, `parameter`, `firingTriggerId`, `monitoringMetadata`,
`consentSettings`: under those parent keys the depth limit is discarded
entirely, so the value is summarized exactly as with no limit. -/
theorem summarizer_dict_truncation_and_key_expansion :
    (∀ (entries : List (String × PyVal)) (max_depth : Option Nat)
        (current_depth : Nat) (parent_key k : String) (s : String),
      depthCut (if parent_key ∈ KEYS_TO_EXPAND then none else max_depth)
          current_depth = false →
      (k, PyVal.str s) ∈ entries →
      ∃ out, summarize_object (PyVal.dict entries) max_depth current_depth
          parent_key = PyVal.dict out ∧
        (k, PyVal.str (truncate_string s)) ∈ out) ∧
    (∀ (v : PyVal) (d current_depth : Nat) (k : String),
      k ∈ KEYS_TO_EXPAND →
      summarize_object v (some d) current_depth k =
        summarize_object v none current_depth k) := by
  constructor
  · intro entries max_depth current_depth parent_key k s hcut hmem
    have hob : summarize_object (PyVal.dict entries) max_depth current_depth
        parent_key =
      PyVal.dict (summarizeEntries entries
        (if parent_key ∈ KEYS_TO_EXPAND then none else max_depth)
        current_depth) := by
      simp only [summarize_object]
      rw [hcut]
      simp
    refine ⟨_, hob, ?_⟩
    rw [summarizeEntries_eq_map]
    exact List.mem_map_of_mem _ hmem
  · intro v d current_depth k hk
    cases v <;> simp only [summarize_object, if_pos hk]

/-- Witness for C8 (amended): a short string value under key `t` is
kept (truncation is the identity below 100 characters), and under the
always-expand key `tag` the depth limit is ignored. -/
theorem summarizer_dict_truncation_witness :
    (∃ out, summarize_object (PyVal.dict [("t", PyVal.str "x")]) (some 1) 0 ""
        = PyVal.dict out ∧
      ("t", PyVal.str (truncate_string "x")) ∈ out) ∧
    summarize_object (PyVal.str "s") (some 1) 5 "tag" =
      summarize_object (PyVal.str "s") none 5 "tag" := by
  constructor
  · exact summarizer_dict_truncation_and_key_expansion.1
      [("t", PyVal.str "x")] (some 1) 0 "" "t" "x" (by decide)
      (List.Mem.head _)
  · exact summarizer_dict_truncation_and_key_expansion.2
      (PyVal.str "s") 1 5 "tag" (by decide)

/-! ### C9: configuration loading -/

def fsEmptyC9 : FileSys := { read := fun _ => none }

def parseFailC9 : String → Except String PyVal := fun _ => Except.error "x"

/-- C9 (counterexample).  The claim asserts `load_config` logs its
error "to the error stream" on a missing file.  The code reports with
Python `print`, which writes to standard output: on a missing
`config.json` the (single) error message goes to the stdout channel and
nothing is written to stderr. -/
theorem load_config_stream_counterexample :
    (load_config parseFailC9 fsEmptyC9 "config.json").messages =
      [(Channel.stdout,
        "Error: Configuration file not found at \x27config.json\x27.")] ∧
    ((load_config parseFailC9 fsEmptyC9 "config.json").messages.filter
      (fun m => m.1 == Channel.stderr)) = [] := by
  exact ⟨rfl, rfl⟩

/-- C9 (amended, proved).  `load_config(path)` returns the parsed JSON
value on success with no message; on a missing file or a parse error it
returns an empty mapping and logs a single error message to *standard
output* (not the error stream); it is a total function — no exception
escapes to the caller — and every message it ever emits goes to the
stdout channel. -/
theorem load_config_graceful (parse : String → Except String PyVal)
    (fs : FileSys) (path : String) :
    (∀ content v, fs.read path = some content → parse content = Except.ok v →
      load_config parse fs path = { value := v, messages := [] }) ∧
    (fs.read path = none →
      (load_config parse fs path).value = PyVal.dict [] ∧
      (load_config parse fs path).messages =
        [(Channel.stdout,
          "Error: Configuration file not found at \x27" ++ path ++ "\x27.")]) ∧
    (∀ content e, fs.read path = some content → parse content = Except.error e →
      (load_config parse fs path).value = PyVal.dict [] ∧
      (load_config parse fs path).messages =
        [(Channel.stdout, "Error loading configuration: " ++ e)]) ∧
    (∀ ch msg, (ch, msg) ∈ (load_config parse fs path).messages →
      ch = Channel.stdout) := by
  refine ⟨?_, ?_, ?_, ?_⟩
  · intro content v hr hp
    simp [load_config, hr, hp]
  · intro hr
    simp [load_config, hr]
  · intro content e hr hp
    simp [load_config, hr, hp]
  · intro ch msg hmem
    cases hr : fs.read path with
    | none =>
      simp [load_config, hr] at hmem
      exact hmem.1
    | some content =>
      cases hp : parse content with
      | ok v => simp [load_config, hr, hp] at hmem
      | error e =>
        simp [load_config, hr, hp] at hmem
        exact hmem.1

/-- Witness for C9 (amended) on a one-file filesystem whose config
parses successfully. -/
theorem load_config_graceful_witness :
    load_config (fun _ => Except.ok (PyVal.dict [("credentials_path",
        PyVal.str "sa.json")]))
      { read := fun p => if p = "config.json" then some "c" else none }
      "config.json" =
    { value := PyVal.dict [("credentials_path", PyVal.str "sa.json")]
      messages := [] } :=
  (load_config_graceful
      (fun _ => Except.ok (PyVal.dict [("credentials_path", PyVal.str "sa.json")]))
      { read := fun p => if p = "config.json" then some "c" else none }
      "config.json").1 "c"
    (PyVal.dict [("credentials_path", PyVal.str "sa.json")])
    (by with_unfolding_all rfl) rfl

end MarketingAudit
